import Mathlib

/-!
Shallow embedding of the T564 pulse-generator controller core
(`T564.py`): the client-side register mirrors, the frame sequencer,
the train-timing calculation, the frequency/period pair, and the
serial write/read framer.  Times are rational nanosecond magnitudes;
frequencies are raw magnitudes whose documented convention is hertz.
-/

namespace T564Model

/-- Cached status of one output channel (`Channel._status`):
polarity flag, enabled flag, delay and width stored as normalized
nanosecond magnitudes (the `ureg.wraps(ns)` setters store bare
magnitudes). -/
structure ChanStatus where
  polarity : Bool
  enabled : Bool
  delay : ℚ
  width : ℚ
deriving DecidableEq

/-- `T564.FRAME_FOREVER`: FC sentinel for looping indefinitely. -/
def FRAME_FOREVER : ℤ := 65535

/-- `T564.FRAME_MAX_LOOPS`: maximum value of the FC register. -/
def FRAME_MAX_LOOPS : ℤ := 65534

/-- `T564.FRAME_MAX_NUM`: maximum number of frames. -/
def FRAME_MAX_NUM : ℤ := 8191

/-- `T564.TRAIN_MAX_PULSES`: maximum pulses per trigger in train mode. -/
def TRAIN_MAX_PULSES : ℤ := 2 ^ 32

/-- `T564.TRAIN_MAX_SPACING` in nanoseconds (10 s).  Declared in the
source but never used by `train_spacing`. -/
def TRAIN_MAX_SPACING_NS : ℚ := 10000000000

/-- One formatted outbound device command, abstracting the string
formatting of `self.write("FC {:d}".format(...))` and friends. -/
inductive Cmd where
  | FA (f : ℤ)
  | FB (f : ℤ)
  | FC (n : ℤ)
  | FR (n : ℤ)
  | TC (n : ℤ)
  | TS (ticks : ℚ)
  | SY (f : ℚ)
  | TRSY
deriving DecidableEq

/-- The local mirror state of a `T564` object: `_freq`,
`_frame_first`, `_frame_last`, `_frame_loops`, the `frames` dict
(association list keyed by frame number), `_train_count`,
`_train_space` (in 20 ns ticks), and the four channel caches. -/
structure T564State where
  freq : ℚ
  frameFirst : ℤ
  frameLast : ℤ
  frameLoops : ℤ
  frames : List (ℤ × List ChanStatus)
  trainCount : ℤ
  trainSpace : ℚ
  chans : List ChanStatus
deriving DecidableEq

/-- Result of one controller operation: the exception raised (if any),
the mirror state after the operation, and the commands transmitted
over the serial channel before returning or raising. -/
structure OpResult where
  err : Option String
  state : T564State
  sent : List Cmd
deriving DecidableEq

/-- Python dict assignment `frames[k] = v` on an association list:
replace the binding if the key is present, else append it. -/
def dictInsert (k : ℤ) (v : List ChanStatus) :
    List (ℤ × List ChanStatus) → List (ℤ × List ChanStatus)
  | [] => [(k, v)]
  | p :: rest => if p.1 = k then (k, v) :: rest else p :: dictInsert k v rest

/-- Getter of the `frame_first` property: returns `_frame_first`. -/
def frame_first (s : T564State) : ℤ := s.frameFirst

/-- Getter of the `frame_last` property: returns `_frame_last`. -/
def frame_last (s : T564State) : ℤ := s.frameLast

/-- Setter of the `frame_first` property: transmits `FA f` and does
not touch any local mirror. -/
def frame_first_set (s : T564State) (f : ℤ) : OpResult :=
  ⟨none, s, [Cmd.FA f]⟩

/-- Setter of the `frame_last` property: raises when `f` is at or
before `frame_first` while more than one frame is saved, otherwise
transmits `FB f`; it never touches `_frame_last`. -/
def frame_last_set (s : T564State) (f : ℤ) : OpResult :=
  if f ≤ frame_first s ∧ 1 < s.frames.length then
    ⟨some "Last frame must come after first frame.", s, []⟩
  else
    ⟨none, s, [Cmd.FB f]⟩

/-- Getter of the `frame_loops` property: 0 when the FC mirror holds
the forever sentinel, else the mirror plus one. -/
def frame_loops (s : T564State) : ℤ :=
  if s.frameLoops = FRAME_FOREVER then 0 else s.frameLoops + 1

/-- Setter of the `frame_loops` property: negative counts and counts
above `FRAME_MAX_LOOPS + 1` raise before anything is sent; 0 stores
the forever sentinel; otherwise the mirror and FC register get
`num - 1`. -/
def frame_loops_set (s : T564State) (num : ℤ) : OpResult :=
  if num < 0 then
    ⟨some "The number of loops must be non-negative.", s, []⟩
  else if num = 0 then
    ⟨none, { s with frameLoops := FRAME_FOREVER }, [Cmd.FC FRAME_FOREVER]⟩
  else if num ≤ FRAME_MAX_LOOPS + 1 then
    ⟨none, { s with frameLoops := num - 1 }, [Cmd.FC (num - 1)]⟩
  else
    ⟨some "The T564 can loop at most 65535 times.", s, []⟩

/-- `T564.frame_save`: with no argument, picks index
`frame_first + len(frames)` and goes through the `frame_last` setter
(whose transmission, if any, precedes the `FR` write); with an
explicit index, range-checks it against `[0, FRAME_MAX_NUM)` before
storing the snapshot and transmitting `FR n`. -/
def frame_save (s : T564State) (frameNum : Option ℤ) : OpResult :=
  match frameNum with
  | none =>
    let n : ℤ := frame_first s + (s.frames.length : ℤ)
    let r := frame_last_set s n
    match r.err with
    | some e => ⟨some e, r.state, r.sent⟩
    | none =>
      ⟨none, { r.state with frames := dictInsert n r.state.chans r.state.frames },
        r.sent ++ [Cmd.FR n]⟩
  | some n =>
    if FRAME_MAX_NUM ≤ n ∨ n < 0 then
      ⟨some "Frame number out of range.", s, []⟩
    else
      ⟨none, { s with frames := dictInsert n s.chans s.frames }, [Cmd.FR n]⟩

/-- Setter of the `train_count` property: rejects counts below 1 or
above `2 ^ 32` before transmitting; otherwise stores `num - 1` and
transmits `TC (num - 1)`. -/
def train_count_set (s : T564State) (num : ℤ) : OpResult :=
  if num < 1 then
    ⟨some "Train count must be positive.", s, []⟩
  else if TRAIN_MAX_PULSES < num then
    ⟨some "Maximum number of pulses is 2^32.", s, []⟩
  else
    ⟨none, { s with trainCount := num - 1 }, [Cmd.TC (num - 1)]⟩

/-- The channels taken into account by the spacing computation: those
with `delay >= 20` (ns) and `enabled`, in source order. -/
def included_chans (s : T564State) : List ChanStatus :=
  s.chans.filter (fun c => decide ((20 : ℚ) ≤ c.delay) && c.enabled)

/-- `rise_times` collected by the `train_spacing` setter. -/
def rise_times (s : T564State) : List ℚ :=
  (included_chans s).map (fun c => c.delay)

/-- `fall_times` collected by the `train_spacing` setter. -/
def fall_times (s : T564State) : List ℚ :=
  (included_chans s).map (fun c => c.delay + c.width)

/-- Getter of the `train_spacing` property: `_train_space * 20`. -/
def train_spacing (s : T564State) : ℚ := s.trainSpace * 20

/-- Setter of the `train_spacing` property: computes
`min_spacing = max(fall_times) - min(rise_times) + 80`; with an empty
included set the `max()` call raises before any mirror update or
transmission; otherwise stores `max(val, min_spacing) / 20` ticks and
transmits them.  No upper bound is applied. -/
def train_spacing_set (s : T564State) (val : ℚ) : OpResult :=
  match (fall_times s).max?, (rise_times s).min? with
  | some fmax, some rmin =>
    let minSpacing : ℚ := fmax - rmin + 80
    let ticks : ℚ := max val minSpacing / 20
    ⟨none, { s with trainSpace := ticks }, [Cmd.TS ticks]⟩
  | _, _ => ⟨some "max() arg is an empty sequence", s, []⟩

/-- A value passed to a unit-wrapped setter: a bare magnitude, a pint
time quantity (canonical magnitude in nanoseconds), or a pint
frequency quantity (canonical magnitude in hertz). -/
inductive PintVal where
  | bare (x : ℚ)
  | time (ns : ℚ)
  | freqHz (hz : ℚ)
deriving DecidableEq

/-- `ureg.wraps(None, ureg.ns, strict=False)`: a bare number passes
through unchanged, a time quantity is converted to its nanosecond
magnitude, and a frequency quantity raises a dimensionality error. -/
def wraps_ns : PintVal → Option ℚ
  | .bare x => some x
  | .time t => some t
  | .freqHz _ => none

/-- `ureg.wraps(None, ureg.Hz, strict=False)`: a bare number passes
through unchanged, a frequency quantity is converted to its hertz
magnitude, and a time quantity raises a dimensionality error. -/
def wraps_hz : PintVal → Option ℚ
  | .bare x => some x
  | .freqHz f => some f
  | .time _ => none

/-- Setter of the `frequency` property: stores the hertz-normalized
magnitude in `_freq` and transmits `SY` followed by `TR SY`. -/
def frequency_set (s : T564State) (v : PintVal) : OpResult :=
  match wraps_hz v with
  | none => ⟨some "DimensionalityError", s, []⟩
  | some f => ⟨none, { s with freq := f }, [Cmd.SY f, Cmd.TRSY]⟩

/-- Getter of the `frequency` property: the raw stored magnitude,
documented to be in hertz. -/
def frequency (s : T564State) : ℚ := s.freq

/-- Setter of the `period` property: normalizes its argument to a
nanosecond magnitude and assigns `frequency = 1 / val` as a bare
number (no nanosecond-to-hertz conversion). -/
def period_set (s : T564State) (v : PintVal) : OpResult :=
  match wraps_ns v with
  | none => ⟨some "DimensionalityError", s, []⟩
  | some p => frequency_set s (.bare (1 / p))

/-- Getter of the `period` property: `1 / _freq` as a raw magnitude,
documented to be in nanoseconds when unitless. -/
def period (s : T564State) : ℚ := 1 / s.freq

/-- The physical frequency, in hertz, of a cycle whose period is `t`
nanoseconds. -/
def nsPeriodToHz (t : ℚ) : ℚ := 1000000000 / t

end T564Model

namespace T564Model

/-! The serial framer (`T564.write`).  Strings are embedded as lists
of characters; the incoming byte stream is a list of characters.  A
drain or read that the source would spin on forever (the accumulated
`extra` can never again equal the two-character end marker, or the
nonblocking read keeps returning nothing) is embedded as `none`. -/

/-- The frame put on the wire: the commands joined by the delimiter,
a trailing delimiter, and a carriage return. -/
def sentFrame (commands : List (List Char)) : List Char :=
  List.intercalate [';'] commands ++ [';', '\r']

/-- Read one response: consume bytes into the accumulator until the
delimiter closes the response.  An exhausted stream means the
nonblocking read never delivers another byte: the loop spins. -/
def readOne : List Char → List Char → Option (List Char × List Char)
  | [], _ => none
  | c :: rest, acc => if c = ';' then some (acc, rest) else readOne rest (acc ++ [c])

/-- Read `k` delimiter-closed responses from the stream. -/
def readResponses : Nat → List Char → Option (List (List Char) × List Char)
  | 0, stream => some ([], stream)
  | k + 1, stream =>
    match readOne stream [] with
    | none => none
    | some (r, rest) =>
      match readResponses k rest with
      | none => none
      | some (rs, rest') => some (r :: rs, rest')

/-- Consume the extraneous end marker: the source appends bytes to
`extra` until it equals the two-character marker, so it terminates
exactly when the next two bytes are the marker and spins forever
otherwise. -/
def drainEndMarker : List Char → Option (List Char)
  | '\r' :: '\n' :: rest => some rest
  | _ => none

/-- `T564.write`: transmit the joined frame, then read one response
per command and drain the end marker.  Returns the transmitted frame
and, when the reads terminate, the responses with the unread rest of
the stream. -/
def write (commands : List (List Char)) (stream : List Char) :
    List Char × Option (List (List Char) × List Char) :=
  (sentFrame commands,
    match readResponses commands.length stream with
    | none => none
    | some (rs, rest) =>
      match drainEndMarker rest with
      | none => none
      | some rest' => some (rs, rest'))

/-- The reply stream produced by bodies each closed by a delimiter. -/
def encodeReplies : List (List Char) → List Char
  | [] => []
  | b :: bs => b ++ ';' :: encodeReplies bs

end T564Model

namespace T564Model

/-! Concrete states used by witnesses and counterexamples. -/

/-- A disabled channel. -/
def offChan : ChanStatus := ⟨true, false, 0, 0⟩

/-- Channel A configured for the train examples: enabled, delay 20 ns,
width 500 ns. -/
def trainChanA : ChanStatus := ⟨true, true, 20, 500⟩

/-- A controller state as left by construction: 16 MHz, no frames,
all four channels disabled. -/
def baseState : T564State :=
  { freq := 16000000, frameFirst := 0, frameLast := 0, frameLoops := 0,
    frames := [], trainCount := 0, trainSpace := 0,
    chans := [offChan, offChan, offChan, offChan] }

/-- `baseState` with channel A set up for the train examples. -/
def demoTrainState : T564State :=
  { baseState with chans := [trainChanA, offChan, offChan, offChan] }

/-- A state with exactly one saved frame. -/
def oneFrameState : T564State :=
  { baseState with frames := [(0, baseState.chans)] }

/-- A state with two saved frames. -/
def twoFrameState : T564State :=
  { baseState with
    frames := [(0, baseState.chans), (1, baseState.chans)]
    frameLast := 1 }

/-- The frame-register operations of claim C10: the `frame_first`
setter, the `frame_last` setter, and `frame_save` with an optional
explicit index. -/
inductive FrameOp where
  | setFirst (f : ℤ)
  | setLast (f : ℤ)
  | save (n : Option ℤ)
deriving DecidableEq

/-- Run one frame operation, keeping the mirror state it leaves
behind whether or not it raised. -/
def applyFrameOp (s : T564State) : FrameOp → T564State
  | .setFirst f => (frame_first_set s f).state
  | .setLast f => (frame_last_set s f).state
  | .save n => (frame_save s n).state

/-- Run a sequence of frame operations from a starting state. -/
def runFrameOps (s : T564State) (ops : List FrameOp) : T564State :=
  ops.foldl applyFrameOp s

end T564Model

namespace T564Model

/-! Helper lemmas for the framer. -/

/-- Reading one response from a delimiter-free body followed by the
delimiter yields the accumulator extended by the body and leaves the
rest of the stream unread. -/
theorem readOne_closes_at_delimiter (body : List Char) :
    ∀ (tail acc : List Char), ';' ∉ body →
      readOne (body ++ ';' :: tail) acc = some (acc ++ body, tail) := by
  induction body with
  | nil => intro tail acc _; simp [readOne]
  | cons c cs ih =>
    intro tail acc h
    have hc : ¬(c = ';') := fun e => h (by simp [e])
    have hcs : ';' ∉ cs := fun m => h (List.mem_cons_of_mem _ m)
    simp only [List.cons_append, readOne, hc, if_false, List.append_eq]
    rw [ih tail (acc ++ [c]) hcs]
    simp

/-- Reading as many responses as there are encoded bodies recovers
exactly the bodies and leaves the trailing stream unread. -/
theorem readResponses_of_encoded (bodies : List (List Char)) :
    ∀ tail : List Char, (∀ b ∈ bodies, ';' ∉ b) →
      readResponses bodies.length (encodeReplies bodies ++ tail) = some (bodies, tail) := by
  induction bodies with
  | nil => intro tail _; simp [readResponses, encodeReplies]
  | cons b bs ih =>
    intro tail h
    have hb : ';' ∉ b := h b (by simp)
    have hbs : ∀ x ∈ bs, ';' ∉ x := fun x m => h x (by simp [m])
    have hstream : encodeReplies (b :: bs) ++ tail = b ++ ';' :: (encodeReplies bs ++ tail) := by
      simp [encodeReplies]
    simp only [List.length_cons, readResponses, hstream]
    rw [readOne_closes_at_delimiter b (encodeReplies bs ++ tail) [] hb]
    simp only [List.nil_append]
    rw [ih tail hbs]

/-- No frame-register operation writes the `_frame_first` or
`_frame_last` mirrors, whether it succeeds or raises. -/
theorem applyFrameOp_preserves_mirrors (s : T564State) (op : FrameOp) :
    (applyFrameOp s op).frameFirst = s.frameFirst ∧
    (applyFrameOp s op).frameLast = s.frameLast := by
  cases op with
  | setFirst f => simp [applyFrameOp, frame_first_set]
  | setLast f =>
    simp only [applyFrameOp, frame_last_set]
    split_ifs <;> simp
  | save n =>
    cases n with
    | none =>
      simp only [applyFrameOp, frame_save, frame_last_set, frame_first]
      split_ifs <;> simp
    | some m =>
      simp only [applyFrameOp, frame_save]
      split_ifs <;> simp

/-- Claim C1 (corrected, counterexample): with only channel A included
(delay 20 ns, width 500 ns, so minimum spacing 580 ns), requesting a
train spacing of 20,000,000,000 ns stores and transmits an effective
spacing of 20,000,000,000 ns, which differs from the claimed
clamp(max(requested, minimum), 10,000,000,000): the setter applies no
upper bound. -/
theorem c1_no_upper_clamp_counterexample :
    (train_spacing_set demoTrainState 20000000000).err = none ∧
    train_spacing (train_spacing_set demoTrainState 20000000000).state = 20000000000 ∧
    (train_spacing_set demoTrainState 20000000000).sent = [Cmd.TS 1000000000] ∧
    (20000000000 : ℚ) ≠ min (max 20000000000 580) TRAIN_MAX_SPACING_NS := by
  refine ⟨rfl, ?_, ?_, by norm_num [TRAIN_MAX_SPACING_NS]⟩ <;>
    norm_num [train_spacing, train_spacing_set, fall_times, rise_times, included_chans,
      demoTrainState, baseState, trainChanA, offChan, List.filter, List.max?, List.min?, max_def]

/-- Claim C1 (amended): for any requested spacing and any channel
configuration with a non-empty included set, setting `train_spacing`
stores and transmits an effective spacing equal to
max(requested_ns, min_spacing_ns) where
min_spacing_ns = max(delay+width) - min(delay) + 80 over the included
set; no upper clamp is applied (requests below the minimum are floored
at it, requests above 10 s pass through unchanged). -/
theorem c1_effective_spacing_amended (s : T564State) (val fmax rmin : ℚ)
    (hf : (fall_times s).max? = some fmax) (hr : (rise_times s).min? = some rmin) :
    (train_spacing_set s val).err = none ∧
    train_spacing (train_spacing_set s val).state = max val (fmax - rmin + 80) ∧
    (train_spacing_set s val).sent = [Cmd.TS (max val (fmax - rmin + 80) / 20)] := by
  unfold train_spacing_set
  rw [hf, hr]
  refine ⟨rfl, ?_, rfl⟩
  show max val (fmax - rmin + 80) / 20 * 20 = max val (fmax - rmin + 80)
  rw [div_mul_cancel₀]
  norm_num

/-- Witness for C1: with only channel A included (delay 20, width 500)
a request of 100 ns yields the floored effective spacing
max(100, 580) = 580 ns. -/
theorem c1_effective_spacing_witness :
    (train_spacing_set demoTrainState 100).err = none ∧
    train_spacing (train_spacing_set demoTrainState 100).state = max 100 (520 - 20 + 80) ∧
    (train_spacing_set demoTrainState 100).sent = [Cmd.TS (max 100 (520 - 20 + 80) / 20)] :=
  c1_effective_spacing_amended demoTrainState 100 520 20
    (by norm_num [fall_times, included_chans, demoTrainState, baseState, trainChanA, offChan,
      List.filter, List.max?])
    (by norm_num [rise_times, included_chans, demoTrainState, baseState, trainChanA, offChan,
      List.filter, List.min?])

/-- Claim C2: for every ordered batch of K >= 1 commands whose reply
bodies contain no delimiter, `write` returns exactly the K bodies in
order with the closing delimiters stripped, and it drains the
trailing two-byte end marker before returning (the unread remainder
of the stream starts right after the marker). -/
theorem c2_write_returns_bodies (commands bodies : List (List Char)) (rest : List Char)
    (hk : 1 ≤ commands.length) (hlen : commands.length = bodies.length)
    (hnd : ∀ b ∈ bodies, ';' ∉ b) :
    (write commands (encodeReplies bodies ++ '\r' :: '\n' :: rest)).2 = some (bodies, rest) := by
  unfold write
  rw [hlen, readResponses_of_encoded bodies ('\r' :: '\n' :: rest) hnd]
  rfl

/-- Witness for C2: two commands, reply bodies OK and 5, returned in
order with the end marker drained. -/
theorem c2_write_witness :
    (write [['F', 'I'], ['T', 'C']]
        (encodeReplies [['O', 'K'], ['5']] ++ '\r' :: '\n' :: [])).2
      = some ([['O', 'K'], ['5']], []) :=
  c2_write_returns_bodies [['F', 'I'], ['T', 'C']] [['O', 'K'], ['5']] []
    (by decide) (by decide) (by decide)

/-- Claim C3: for every n in 0..FRAME_MAX_LOOPS+1, setting
`frame_loops` to n and reading it back returns n, and the stored FC
mirror is the forever sentinel 65535 when n = 0 and n - 1 otherwise. -/
theorem c3_frame_loops_roundtrip (s : T564State) (n : ℤ)
    (h0 : 0 ≤ n) (h1 : n ≤ FRAME_MAX_LOOPS + 1) :
    (frame_loops_set s n).err = none ∧
    frame_loops (frame_loops_set s n).state = n ∧
    (frame_loops_set s n).state.frameLoops =
      (if n = 0 then FRAME_FOREVER else n - 1) := by
  by_cases hzero : n = 0
  · subst hzero
    have hrw : frame_loops_set s 0
        = ⟨none, { s with frameLoops := FRAME_FOREVER }, [Cmd.FC FRAME_FOREVER]⟩ := by
      simp [frame_loops_set]
    rw [hrw]
    simp [frame_loops, FRAME_FOREVER]
  · have hneg : ¬(n < 0) := by omega
    have hrw : frame_loops_set s n
        = ⟨none, { s with frameLoops := n - 1 }, [Cmd.FC (n - 1)]⟩ := by
      simp [frame_loops_set, hneg, hzero, h1]
    rw [hrw]
    have hne : (n - 1 : ℤ) ≠ FRAME_FOREVER := by
      simp only [FRAME_MAX_LOOPS] at h1
      simp only [FRAME_FOREVER]
      omega
    refine ⟨rfl, ?_, ?_⟩
    · simp only [frame_loops, hne, if_false]
      omega
    · simp [hzero]

/-- Witness for C3: setting 3 loops round-trips and stores FC = 2. -/
theorem c3_frame_loops_witness :
    (frame_loops_set baseState 3).err = none ∧
    frame_loops (frame_loops_set baseState 3).state = 3 ∧
    (frame_loops_set baseState 3).state.frameLoops =
      (if (3 : ℤ) = 0 then FRAME_FOREVER else 3 - 1) :=
  c3_frame_loops_roundtrip baseState 3 (by norm_num) (by norm_num [FRAME_MAX_LOOPS])

/-- Claim C4 (code bug): setting the period to the time quantity
100 ns raises nothing and round-trips the period magnitude, but the
frequency read back is the raw magnitude 1/100 (hertz by the
documented convention) while the physical reciprocal of 100 ns is
10,000,000 Hz: the setter assigns `frequency = 1 / val` with `val` in
nanoseconds, skipping the nanosecond-to-hertz conversion. -/
theorem c4_period_frequency_unit_bug :
    (period_set baseState (PintVal.time 100)).err = none ∧
    period (period_set baseState (PintVal.time 100)).state = 100 ∧
    frequency (period_set baseState (PintVal.time 100)).state = 1 / 100 ∧
    nsPeriodToHz 100 = 10000000 ∧ (1 / 100 : ℚ) ≠ 10000000 := by
  norm_num [period, frequency, period_set, frequency_set, wraps_ns, wraps_hz,
    nsPeriodToHz, baseState]

/-- Claim C5: each documented range check (`frame_loops` outside
[0, FRAME_MAX_LOOPS+1], `train_count` outside [1, 2^32], explicit
`frame_save` index outside [0, FRAME_MAX_NUM)) raises before any
command is transmitted and leaves the whole mirror state unchanged. -/
theorem c5_local_validation_atomic (s : T564State) :
    (∀ n : ℤ, n < 0 ∨ FRAME_MAX_LOOPS + 1 < n →
      (frame_loops_set s n).err.isSome = true ∧
      (frame_loops_set s n).state = s ∧ (frame_loops_set s n).sent = []) ∧
    (∀ n : ℤ, n < 1 ∨ TRAIN_MAX_PULSES < n →
      (train_count_set s n).err.isSome = true ∧
      (train_count_set s n).state = s ∧ (train_count_set s n).sent = []) ∧
    (∀ n : ℤ, n < 0 ∨ FRAME_MAX_NUM ≤ n →
      (frame_save s (some n)).err.isSome = true ∧
      (frame_save s (some n)).state = s ∧ (frame_save s (some n)).sent = []) := by
  refine ⟨fun n h => ?_, fun n h => ?_, fun n h => ?_⟩
  · rcases h with h | h
    · have hrw : frame_loops_set s n
          = ⟨some "The number of loops must be non-negative.", s, []⟩ := by
        simp [frame_loops_set, h]
      rw [hrw]
      simp
    · simp only [FRAME_MAX_LOOPS] at h
      have h1 : ¬(n < 0) := by omega
      have h2 : ¬(n = 0) := by omega
      have h3 : ¬(n ≤ FRAME_MAX_LOOPS + 1) := by
        simp only [FRAME_MAX_LOOPS]
        omega
      have hrw : frame_loops_set s n
          = ⟨some "The T564 can loop at most 65535 times.", s, []⟩ := by
        simp [frame_loops_set, h1, h2, h3]
      rw [hrw]
      simp
  · rcases h with h | h
    · have hrw : train_count_set s n
          = ⟨some "Train count must be positive.", s, []⟩ := by
        simp [train_count_set, h]
      rw [hrw]
      simp
    · have h1 : ¬(n < 1) := by
        simp only [TRAIN_MAX_PULSES] at h
        omega
      have hrw : train_count_set s n
          = ⟨some "Maximum number of pulses is 2^32.", s, []⟩ := by
        simp [train_count_set, h1, h]
      rw [hrw]
      simp
  · have hrw : frame_save s (some n)
        = if FRAME_MAX_NUM ≤ n ∨ n < 0 then
            ⟨some "Frame number out of range.", s, []⟩
          else
            ⟨none, { s with frames := dictInsert n s.chans s.frames }, [Cmd.FR n]⟩ := rfl
    rw [hrw, if_pos (Or.symm h)]
    simp

/-- Witness for C5: loops = -1, train count = 0 and frame index 8191
are each rejected with nothing sent and the state intact. -/
theorem c5_local_validation_witness :
    ((frame_loops_set baseState (-1)).err.isSome = true ∧
      (frame_loops_set baseState (-1)).state = baseState ∧
      (frame_loops_set baseState (-1)).sent = []) ∧
    ((train_count_set baseState 0).err.isSome = true ∧
      (train_count_set baseState 0).state = baseState ∧
      (train_count_set baseState 0).sent = []) ∧
    ((frame_save baseState (some 8191)).err.isSome = true ∧
      (frame_save baseState (some 8191)).state = baseState ∧
      (frame_save baseState (some 8191)).sent = []) :=
  ⟨(c5_local_validation_atomic baseState).1 (-1) (Or.inl (by norm_num)),
    (c5_local_validation_atomic baseState).2.1 0 (Or.inl (by norm_num)),
    (c5_local_validation_atomic baseState).2.2 8191 (Or.inr (by norm_num [FRAME_MAX_NUM]))⟩

/-- Claim C6: the `frame_last` setter raises for every f at or before
`frame_first` while more than one frame is saved, transmitting
nothing; with exactly one frame saved it accepts f equal to
`frame_first` and transmits the FB register write. -/
theorem c6_frame_last_guard :
    (∀ (s : T564State) (f : ℤ), 1 < s.frames.length → f ≤ frame_first s →
      (frame_last_set s f).err.isSome = true ∧
      (frame_last_set s f).state = s ∧ (frame_last_set s f).sent = []) ∧
    (∀ s : T564State, s.frames.length = 1 →
      (frame_last_set s (frame_first s)).err = none ∧
      (frame_last_set s (frame_first s)).state = s ∧
      (frame_last_set s (frame_first s)).sent = [Cmd.FB (frame_first s)]) := by
  constructor
  · intro s f hlen hle
    unfold frame_last_set
    split_ifs with hc <;> simp_all
  · intro s hlen
    unfold frame_last_set
    split_ifs with hc <;> simp_all

/-- Witness for C6: with two frames saved, last := 0 = first is
rejected with nothing sent; with one frame saved, last := first is
accepted and FB is transmitted. -/
theorem c6_frame_last_witness :
    ((frame_last_set twoFrameState 0).err.isSome = true ∧
      (frame_last_set twoFrameState 0).state = twoFrameState ∧
      (frame_last_set twoFrameState 0).sent = []) ∧
    ((frame_last_set oneFrameState (frame_first oneFrameState)).err = none ∧
      (frame_last_set oneFrameState (frame_first oneFrameState)).state = oneFrameState ∧
      (frame_last_set oneFrameState (frame_first oneFrameState)).sent
        = [Cmd.FB (frame_first oneFrameState)]) :=
  ⟨c6_frame_last_guard.1 twoFrameState 0 (by simp [twoFrameState, baseState])
      (by simp [twoFrameState, baseState, frame_first]),
    c6_frame_last_guard.2 oneFrameState (by simp [oneFrameState, baseState])⟩

/-- Claim C7: whenever no channel is both enabled and delayed by at
least 20 ns, setting `train_spacing` raises (the max() of the empty
fall-time list), transmits nothing, and leaves the cached spacing and
the rest of the state unchanged. -/
theorem c7_train_spacing_empty_included (s : T564State) (val : ℚ)
    (h : included_chans s = []) :
    (train_spacing_set s val).err.isSome = true ∧
    (train_spacing_set s val).state = s ∧ (train_spacing_set s val).sent = [] := by
  unfold train_spacing_set fall_times rise_times
  rw [h]
  simp

/-- Witness for C7: with all four channels disabled a requested
spacing of 1000 ns is rejected with nothing sent. -/
theorem c7_train_spacing_witness :
    (train_spacing_set baseState 1000).err.isSome = true ∧
    (train_spacing_set baseState 1000).state = baseState ∧
    (train_spacing_set baseState 1000).sent = [] :=
  c7_train_spacing_empty_included baseState 1000
    (by simp [included_chans, baseState, offChan])

/-- Claim C8 (corrected, counterexample): setting the period to 10 ns,
whose implied frequency 100 MHz exceeds the 16 MHz ceiling, raises no
error and transmits the synthesizer command anyway: the period setter
performs no range validation. -/
theorem c8_no_range_check_counterexample :
    (period_set baseState (PintVal.time 10)).err = none ∧
    (period_set baseState (PintVal.time 10)).sent = [Cmd.SY (1 / 10), Cmd.TRSY] ∧
    16000000 < nsPeriodToHz 10 := by
  norm_num [period_set, frequency_set, wraps_ns, wraps_hz, nsPeriodToHz]

/-- Claim C8 (amended): for every positive period value, including any
whose implied frequency exceeds 16 MHz, the period setter raises no
error: it stores the reciprocal of the normalized magnitude as the
frequency mirror and transmits the synthesizer write. -/
theorem c8_period_set_never_rejects (s : T564State) (p : ℚ) (hp : 0 < p) :
    (period_set s (PintVal.time p)).err = none ∧
    (period_set s (PintVal.time p)).state = { s with freq := 1 / p } ∧
    (period_set s (PintVal.time p)).sent = [Cmd.SY (1 / p), Cmd.TRSY] := by
  clear hp
  simp [period_set, frequency_set, wraps_ns, wraps_hz]

/-- Witness for C8: period 10 ns is accepted, stored, and sent. -/
theorem c8_period_set_witness :
    (period_set baseState (PintVal.time 10)).err = none ∧
    (period_set baseState (PintVal.time 10)).state = { baseState with freq := 1 / 10 } ∧
    (period_set baseState (PintVal.time 10)).sent = [Cmd.SY (1 / 10), Cmd.TRSY] :=
  c8_period_set_never_rejects baseState 10 (by norm_num)

/-- Claim C9 (corrected, counterexample): called with zero commands,
`write` does not reject the batch: it transmits the bare
delimiter-plus-terminator frame and, when the stream then begins with
the end marker, returns successfully with an empty response list. -/
theorem c9_empty_batch_counterexample :
    sentFrame [] = [';', '\r'] ∧ (write [] ['\r', '\n']).2 = some ([], []) := by
  constructor
  · rfl
  · rfl

/-- Claim C9 (amended): `write` with zero commands raises no
validation error and transmits the two-byte frame of a bare delimiter
and carriage return; it then returns an empty response list exactly
when the stream starts with the end marker, and otherwise the drain
loop never completes (embedded as none). -/
theorem c9_empty_batch_amended :
    sentFrame [] = [';', '\r'] ∧
    ∀ stream : List Char,
      (write [] stream).2
        = (drainEndMarker stream).map (fun r => (([] : List (List Char)), r)) := by
  refine ⟨rfl, fun stream => ?_⟩
  cases h : drainEndMarker stream <;> simp [write, readResponses, h]

/-- Claim C10: the `_frame_first` and `_frame_last` mirrors are
written only at construction: no sequence of `frame_first` setter,
`frame_last` setter, or `frame_save` calls (explicit or auto-index,
succeeding or raising) ever changes what the getters return. -/
theorem c10_frame_mirrors_construction_only (s : T564State) (ops : List FrameOp) :
    frame_first (runFrameOps s ops) = frame_first s ∧
    frame_last (runFrameOps s ops) = frame_last s := by
  induction ops generalizing s with
  | nil => exact ⟨rfl, rfl⟩
  | cons op rest ih =>
    have hstep := applyFrameOp_preserves_mirrors s op
    have htail := ih (applyFrameOp s op)
    have hrun : runFrameOps s (op :: rest) = runFrameOps (applyFrameOp s op) rest := rfl
    rw [hrun]
    unfold frame_first frame_last at *
    omega

end T564Model
